import Mathlib

/-!
Shallow embedding of `src/src/handler/page.rs` from `miya9022/chromiumoxide`:
the session layer (`PageHandle` / `PageInner`) of a Chrome-DevTools-Protocol
client, plus the free function `execute` that implements command/response
correlation.

Modelling conventions:
* Asynchronous execution is embedded as explicit effect accounting: every
  method returns the list of messages actually delivered to the routing
  actor's mailbox, the value the call resolves to, and the advanced
  oneshot-channel allocation counter.
* A `futures::channel::oneshot` sender is modelled by its allocation token
  (a `Nat`); `oneshot_channel()` hands out the current counter value and
  advances it, so tokens of distinct channels are distinct.  The behaviour
  of the routing-actor side of one await point (fulfilling the receiver or
  dropping it, and whether the bounded mailbox send succeeds) is an explicit
  environment value (`OneshotEnv`) supplied per call.
* Types that page.rs imports from sibling crates/modules that are not part
  of this source slice (chromiumoxide_cdp, chromiumoxide_types, crate::cmd,
  crate::error, crate::handler::target, crate::keys, crate::js) are modelled
  from the specification; each such definition carries a doc comment saying
  so.  Everything else is translated directly from page.rs.
-/

namespace Chromiumoxide

/-- Opaque stable identifier of a debuggable target
(`browser_protocol::target::TargetId`, an external newtype over a string). -/
structure TargetId where
  id : String
  deriving DecidableEq

/-- Opaque identifier of the protocol session attached to a target
(`browser_protocol::target::SessionId`, an external newtype over a string). -/
structure SessionId where
  id : String
  deriving DecidableEq

/-- DOM node identifier (`browser_protocol::dom::NodeId`, an external newtype
over an integer).  The engine uses the value `0` as the "no such node"
sentinel for `DOM.querySelector` misses. -/
structure NodeId where
  id : Nat
  deriving DecidableEq

/-- Engine-assigned identifier of a concrete scripting context
(`js_protocol::runtime::ExecutionContextId`, external newtype). -/
structure ExecutionContextId where
  id : Nat
  deriving DecidableEq

/-- Frame identifier (external newtype over a string). -/
structure FrameId where
  id : String
  deriving DecidableEq

/-- Remote JavaScript object identifier (external newtype over a string). -/
structure RemoteObjectId where
  id : String
  deriving DecidableEq

/-- Modelled from the spec: an opaque remote JavaScript value description as
returned by evaluation commands; the core never inspects it, so it is kept as
an opaque wrapper. -/
structure RemoteObject where
  data : String
  deriving DecidableEq

/-- Modelled from the spec (§7, Script exception): the exception-details
payload an evaluation response may carry; opaque to the core beyond its
presence. -/
structure ExceptionDetails where
  text : String
  deriving DecidableEq

/-- Modelled from the spec: `crate::error::ChannelError` (not in this source
slice) distinguishes the two channel failures: an mpsc send that fails
because the receiver is gone, and a oneshot receiver cancelled because its
sender was dropped unfulfilled. -/
inductive ChannelError where
  | send
  | canceled
  deriving DecidableEq

/-- Modelled from the spec (§7 error taxonomy): `crate::error::CdpError` (not
in this source slice).  The variants used by page.rs: channel failures
(connection lost), a typed JavaScript-exception error, an ad-hoc message
error (`CdpError::msg`, used for unknown key names), and a remote
protocol-level error. -/
inductive CdpError where
  | channelSendError (e : ChannelError)
  | javascriptException (details : ExceptionDetails)
  | msg (s : String)
  | remote (code : Int) (message : String)
  deriving DecidableEq

/-- Modelled from the spec (§7): the Transport/Connection-lost error kind is
exactly the channel-failure variants — the routing actor or the underlying
connection is gone. -/
def CdpError.is_connection_lost : CdpError → Bool
  | CdpError.channelSendError _ => true
  | _ => false

/-- `crate::handler::domworld::DOMWorldKind` (not in this source slice);
modelled from the spec (§3, DOM World): an enumerated tag for the isolated
scripting world of a frame. -/
inductive DOMWorldKind where
  | main
  | secondary
  deriving DecidableEq

/-- Modelled from the spec (§5): the bounded `futures::channel::mpsc` sender.
Only its capacity matters to this core; queueing behaviour of the mailbox is
captured by `Sender.accepts`. -/
structure Sender where
  buffer : Nat
  deriving DecidableEq

/-- Modelled from the spec (§5): receiver half of the bounded mpsc channel. -/
structure Receiver where
  buffer : Nat
  deriving DecidableEq

/-- Modelled from the spec (§5): `futures::channel::mpsc::channel(buffer)`
creates a bounded channel; both endpoints record the capacity. -/
def channel (buffer : Nat) : Sender × Receiver :=
  (⟨buffer⟩, ⟨buffer⟩)

/-- Modelled from the spec (§5): a bounded mailbox accepts a new message
without suspending the sender exactly when fewer than `buffer` messages are
already queued. -/
def Sender.accepts (s : Sender) (queued : Nat) : Bool :=
  decide (queued < s.buffer)

/-- The two ways a oneshot receiver's await can resolve: the routing actor
fulfilled the channel with a value, or dropped the sender unfulfilled. -/
inductive Fulfillment (A : Type) where
  | fulfilled (value : A)
  | dropped
  deriving DecidableEq

/-- The routing-actor-side behaviour of one send-then-await round trip: does
the bounded mailbox send succeed (the actor is still draining its mailbox),
and how is the freshly created oneshot channel resolved. -/
structure OneshotEnv (A : Type) where
  sendOk : Bool
  reply : Fulfillment A

/-- Modelled from the spec: `chromiumoxide_types::CommandResponse<T>` — the
decoded, typed response to one command, tagged with the wire method name.
(The wire correlation id lives in the routing actor and is out of scope.) -/
structure CommandResponse (R : Type) where
  result : R
  method : String
  deriving DecidableEq

/-- Modelled from the spec (§6, message contract): `crate::cmd::CommandMessage`
(not in this source slice) wraps one typed command, its wire method name, the
session tag, and the sender half (token) of the per-call completion channel. -/
structure CommandMessage (C : Type) where
  command : C
  method : String
  session_id : Option SessionId
  tx : Nat
  deriving DecidableEq

/-- Modelled from the spec (§6): `crate::handler::target::GetExecutionContext`
(not in this source slice) — the context query: world tag, optional frame id,
and the completion-channel token. -/
structure GetExecutionContext where
  dom_world : DOMWorldKind
  frame_id : Option FrameId
  tx : Nat
  deriving DecidableEq

/-- Modelled from the spec (§6, boundary with the Routing Actor):
`crate::handler::target::TargetMessage` (not in this source slice) — the
three message shapes page.rs puts into the routing actor's mailbox.  The
real type erases the command; the embedding keeps it typed per call site. -/
inductive TargetMessage (C : Type) where
  | command (msg : CommandMessage C)
  | waitForNavigation (tx : Nat)
  | getExecutionContext (g : GetExecutionContext)
  deriving DecidableEq

/-- Free function `execute` (page.rs lines 326–338): create a fresh oneshot
channel, read the command's wire method, wrap command + completion sender +
session tag into a `CommandMessage`, send it as `TargetMessage::Command`,
await the oneshot, and decode via `to_command_response`.  `C` is the command
type, `W` the type-erased wire response the routing actor fulfils with, `R`
the statically paired response type.  (`CommandMessage::with_session` also
serializes the payload; wire serialization is out of scope per the spec and
modelled as infallible.) -/
def execute {C R W : Type} (cmd : C) (identifier : C → String)
    (to_command_response : W → String → Except CdpError (CommandResponse R))
    (sender : Sender) (session : Option SessionId) (fresh : Nat)
    (env : OneshotEnv (Except CdpError W)) :
    List (TargetMessage C) × Except CdpError (CommandResponse R) × Nat :=
  let tx := fresh
  let method := identifier cmd
  let msg : CommandMessage C := ⟨cmd, method, session, tx⟩
  if env.sendOk then
    match env.reply with
    | Fulfillment.fulfilled (Except.ok raw) =>
        ([TargetMessage.command msg], to_command_response raw method, fresh + 1)
    | Fulfillment.fulfilled (Except.error e) =>
        ([TargetMessage.command msg], Except.error e, fresh + 1)
    | Fulfillment.dropped =>
        ([TargetMessage.command msg],
          Except.error (CdpError.channelSendError ChannelError.canceled), fresh + 1)
  else
    ([], Except.error (CdpError.channelSendError ChannelError.send), fresh + 1)

/-- `PageInner` (page.rs lines 58–63): the session handle — target id,
session id, and the (cloneable) outbound channel sender to the routing
actor.  All methods take `&self`; the struct has no interior mutability. -/
structure PageInner where
  target_id : TargetId
  session_id : SessionId
  sender : Sender
  deriving DecidableEq

/-- `PageHandle` (page.rs lines 33–37): receiver half kept for the routing
actor plus the shared (`Arc`) `PageInner`. -/
structure PageHandle where
  rx : Receiver
  page : PageInner
  deriving DecidableEq

/-- `PageHandle::new` (page.rs lines 40–51): creates the bounded channel with
`channel(1)` and stores target id, session id and the sender in the inner
handle. -/
def PageHandle.new (target_id : TargetId) (session_id : SessionId) : PageHandle :=
  let p := channel 1
  { rx := p.2
    page := { target_id := target_id, session_id := session_id, sender := p.1 } }

/-- `PageHandle::inner` (page.rs lines 53–55). -/
def PageHandle.inner (self : PageHandle) : PageInner :=
  self.page

/-- `PageInner::execute` (page.rs lines 67–69): delegates to the free
`execute` with a clone of the sender and `Some` of the handle's session id. -/
def PageInner.execute {C R W : Type} (self : PageInner) (cmd : C)
    (identifier : C → String)
    (to_command_response : W → String → Except CdpError (CommandResponse R))
    (fresh : Nat) (env : OneshotEnv (Except CdpError W)) :
    List (TargetMessage C) × Except CdpError (CommandResponse R) × Nat :=
  Chromiumoxide.execute cmd identifier to_command_response self.sender (some self.session_id)
    fresh env

/-- `PageInner::wait_for_navigation` (page.rs lines 73–80): create a fresh
oneshot, send `TargetMessage::WaitForNavigation(tx)`, then `rx.await??` —
the oneshot carries `Result<String>`, so a dropped channel and a fulfilled
error both surface as errors. -/
def PageInner.wait_for_navigation {C : Type} (self : PageInner) (fresh : Nat)
    (env : OneshotEnv (Except CdpError String)) :
    List (TargetMessage C) × Except CdpError String × Nat :=
  let tx := fresh
  if env.sendOk then
    match env.reply with
    | Fulfillment.fulfilled (Except.ok url) =>
        ([TargetMessage.waitForNavigation tx], Except.ok url, fresh + 1)
    | Fulfillment.fulfilled (Except.error e) =>
        ([TargetMessage.waitForNavigation tx], Except.error e, fresh + 1)
    | Fulfillment.dropped =>
        ([TargetMessage.waitForNavigation tx],
          Except.error (CdpError.channelSendError ChannelError.canceled), fresh + 1)
  else
    ([], Except.error (CdpError.channelSendError ChannelError.send), fresh + 1)

/-- `PageInner::execution_context_for_world` (page.rs lines 294–308): create
a fresh oneshot, send `TargetMessage::GetExecutionContext` with the world
tag and `frame_id: None`, then `rx.await?` — the oneshot carries
`Option<ExecutionContextId>` directly, so `None` is a successful outcome and
only a dropped channel is an error. -/
def PageInner.execution_context_for_world {C : Type} (self : PageInner)
    (dom_world : DOMWorldKind) (fresh : Nat)
    (env : OneshotEnv (Option ExecutionContextId)) :
    List (TargetMessage C) × Except CdpError (Option ExecutionContextId) × Nat :=
  let tx := fresh
  if env.sendOk then
    match env.reply with
    | Fulfillment.fulfilled v =>
        ([TargetMessage.getExecutionContext ⟨dom_world, none, tx⟩], Except.ok v, fresh + 1)
    | Fulfillment.dropped =>
        ([TargetMessage.getExecutionContext ⟨dom_world, none, tx⟩],
          Except.error (CdpError.channelSendError ChannelError.canceled), fresh + 1)
  else
    ([], Except.error (CdpError.channelSendError ChannelError.send), fresh + 1)

/-- `PageInner::execution_context` (page.rs lines 284–286): the Main world's
context. -/
def PageInner.execution_context {C : Type} (self : PageInner) (fresh : Nat)
    (env : OneshotEnv (Option ExecutionContextId)) :
    List (TargetMessage C) × Except CdpError (Option ExecutionContextId) × Nat :=
  PageInner.execution_context_for_world self DOMWorldKind.main fresh env

/-- `PageInner::secondary_execution_context` (page.rs lines 288–292): the
Secondary world's context. -/
def PageInner.secondary_execution_context {C : Type} (self : PageInner) (fresh : Nat)
    (env : OneshotEnv (Option ExecutionContextId)) :
    List (TargetMessage C) × Except CdpError (Option ExecutionContextId) × Nat :=
  PageInner.execution_context_for_world self DOMWorldKind.secondary fresh env

/-- Wire method name of `Runtime.evaluate` (from the external protocol
catalog). -/
def evaluateMethod : String := "Runtime.evaluate"

/-- Wire method name of `Runtime.callFunctionOn` (from the external protocol
catalog). -/
def callFunctionOnMethod : String := "Runtime.callFunctionOn"

/-- Wire method name of `Input.dispatchKeyEvent` (from the external protocol
catalog). -/
def dispatchKeyEventMethod : String := "Input.dispatchKeyEvent"

/-- Wire method name of `DOM.querySelector` (from the external protocol
catalog). -/
def querySelectorMethod : String := "DOM.querySelector"

/-- Modelled from the spec: `js_protocol::runtime::EvaluateParams` (external
protocol catalog).  Only the fields page.rs reads or writes are modelled:
the expression and the three optional fields the wrappers default. -/
structure EvaluateParams where
  expression : String
  context_id : Option ExecutionContextId
  await_promise : Option Bool
  return_by_value : Option Bool
  deriving DecidableEq

/-- Wire method of an `EvaluateParams` command (`Command::identifier`). -/
def EvaluateParams.identifier (_ : EvaluateParams) : String :=
  evaluateMethod

/-- Modelled from the spec: `js_protocol::runtime::EvaluateReturns` — the
evaluation result object plus optional exception details. -/
structure EvaluateReturns where
  result : RemoteObject
  exception_details : Option ExceptionDetails
  deriving DecidableEq

/-- Modelled from the spec: `js_protocol::runtime::CallFunctionOnParams`
(external protocol catalog); only the fields page.rs touches are modelled. -/
structure CallFunctionOnParams where
  function_declaration : String
  object_id : Option RemoteObjectId
  execution_context_id : Option ExecutionContextId
  await_promise : Option Bool
  return_by_value : Option Bool
  generate_preview : Option Bool
  deriving DecidableEq

/-- Wire method of a `CallFunctionOnParams` command (`Command::identifier`). -/
def CallFunctionOnParams.identifier (_ : CallFunctionOnParams) : String :=
  callFunctionOnMethod

/-- Modelled from the spec: `js_protocol::runtime::CallFunctionOnReturns` —
the result object plus optional exception details. -/
structure CallFunctionOnReturns where
  result : RemoteObject
  exception_details : Option ExceptionDetails
  deriving DecidableEq

/-- Modelled from the spec: `crate::js::EvaluationResult` (not in this source
slice) wraps the remote object of a successful evaluation. -/
structure EvaluationResult where
  inner : RemoteObject
  deriving DecidableEq

/-- `EvaluationResult::new` (crate::js, modelled from the spec). -/
def EvaluationResult.new (inner : RemoteObject) : EvaluationResult :=
  ⟨inner⟩

/-- `PageInner::evaluate_expression` (page.rs lines 239–260): if the caller
supplied no `context_id`, fill it with the Main world's resolved context
(`self.execution_context()`); default `await_promise` and `return_by_value`
to `Some(true)` when unset; execute; and promote `exception_details` of the
response into `CdpError::JavascriptException`.  `ctxEnv` is the environment
of the (at most one) context query, `cmdEnv` that of the command round
trip. -/
def PageInner.evaluate_expression {W : Type} (self : PageInner)
    (evaluate : EvaluateParams) (fresh : Nat)
    (ctxEnv : OneshotEnv (Option ExecutionContextId))
    (cmdEnv : OneshotEnv (Except CdpError W))
    (to_command_response : W → String → Except CdpError (CommandResponse EvaluateReturns)) :
    List (TargetMessage EvaluateParams) × Except CdpError EvaluationResult × Nat :=
  let step :=
    if evaluate.context_id.isNone then
      match PageInner.execution_context (C := EvaluateParams) self fresh ctxEnv with
      | (msgs, Except.ok cid, fresh1) =>
          (msgs, Except.ok { evaluate with context_id := cid }, fresh1)
      | (msgs, Except.error e, fresh1) => (msgs, Except.error e, fresh1)
    else
      ([], Except.ok evaluate, fresh)
  match step with
  | (msgs, Except.error e, fresh1) => (msgs, Except.error e, fresh1)
  | (msgs1, Except.ok ev1, fresh1) =>
    let ev2 := if ev1.await_promise.isNone then { ev1 with await_promise := some true } else ev1
    let ev3 :=
      if ev2.return_by_value.isNone then { ev2 with return_by_value := some true } else ev2
    match PageInner.execute self ev3 EvaluateParams.identifier to_command_response fresh1 cmdEnv with
    | (msgs2, Except.error e, fresh2) => (msgs1 ++ msgs2, Except.error e, fresh2)
    | (msgs2, Except.ok resp, fresh2) =>
      match resp.result.exception_details with
      | some exception =>
          (msgs1 ++ msgs2, Except.error (CdpError.javascriptException exception), fresh2)
      | none =>
          (msgs1 ++ msgs2, Except.ok (EvaluationResult.new resp.result.result), fresh2)

/-- `PageInner::evaluate_function` (page.rs lines 262–282): identical shape
to `evaluate_expression`, over `CallFunctionOnParams` and its
`execution_context_id` field. -/
def PageInner.evaluate_function {W : Type} (self : PageInner)
    (evaluate : CallFunctionOnParams) (fresh : Nat)
    (ctxEnv : OneshotEnv (Option ExecutionContextId))
    (cmdEnv : OneshotEnv (Except CdpError W))
    (to_command_response : W → String → Except CdpError (CommandResponse CallFunctionOnReturns)) :
    List (TargetMessage CallFunctionOnParams) × Except CdpError EvaluationResult × Nat :=
  let step :=
    if evaluate.execution_context_id.isNone then
      match PageInner.execution_context (C := CallFunctionOnParams) self fresh ctxEnv with
      | (msgs, Except.ok cid, fresh1) =>
          (msgs, Except.ok { evaluate with execution_context_id := cid }, fresh1)
      | (msgs, Except.error e, fresh1) => (msgs, Except.error e, fresh1)
    else
      ([], Except.ok evaluate, fresh)
  match step with
  | (msgs, Except.error e, fresh1) => (msgs, Except.error e, fresh1)
  | (msgs1, Except.ok ev1, fresh1) =>
    let ev2 := if ev1.await_promise.isNone then { ev1 with await_promise := some true } else ev1
    let ev3 :=
      if ev2.return_by_value.isNone then { ev2 with return_by_value := some true } else ev2
    match PageInner.execute self ev3 CallFunctionOnParams.identifier to_command_response fresh1
        cmdEnv with
    | (msgs2, Except.error e, fresh2) => (msgs1 ++ msgs2, Except.error e, fresh2)
    | (msgs2, Except.ok resp, fresh2) =>
      match resp.result.exception_details with
      | some exception =>
          (msgs1 ++ msgs2, Except.error (CdpError.javascriptException exception), fresh2)
      | none =>
          (msgs1 ++ msgs2, Except.ok (EvaluationResult.new resp.result.result), fresh2)

/-- Modelled from the spec (§6): one entry of the internal keycode table of
`crate::keys` (not in this source slice): a human-readable key name maps to
the DOM key value, the physical code, the windows virtual-key code, and
optional generated text. -/
structure KeyDefinition where
  key : String
  code : String
  key_code : Int
  text : Option String
  deriving DecidableEq

/-- Modelled from the spec (§6): `crate::keys::get_key_definition` (not in
this source slice) — the keycode-table lookup, `None` for unknown names.
Only a representative fragment of the US-keyboard table is modelled; the
claims about `press_key`/`type_str` are proved for an arbitrary lookup
function and the table is used for concrete instances. -/
def get_key_definition (key : String) : Option KeyDefinition :=
  if key = "H" then some ⟨"H", "KeyH", 72, none⟩
  else if key = "i" then some ⟨"i", "KeyI", 73, none⟩
  else if key = "Enter" then some ⟨"Enter", "Enter", 13, some "\r"⟩
  else if key = "Escape" then some ⟨"Escape", "Escape", 27, none⟩
  else none

/-- `browser_protocol::input::DispatchKeyEventType` (external protocol
catalog). -/
inductive DispatchKeyEventType where
  | keyDown
  | keyUp
  | rawKeyDown
  | char
  deriving DecidableEq

/-- Modelled from the spec: `browser_protocol::input::DispatchKeyEventParams`
(external protocol catalog); the fields page.rs sets through the builder. -/
structure DispatchKeyEventParams where
  type : DispatchKeyEventType
  text : Option String
  key : Option String
  code : Option String
  windows_virtual_key_code : Option Int
  native_virtual_key_code : Option Int
  deriving DecidableEq

/-- Wire method of a `DispatchKeyEventParams` command. -/
def DispatchKeyEventParams.identifier (_ : DispatchKeyEventParams) : String :=
  dispatchKeyEventMethod

/-- `Input.dispatchKeyEvent` has an empty response payload. -/
structure DispatchKeyEventReturns where
  deriving DecidableEq

/-- `PageInner::press_key` (page.rs lines 185–215): look the key name up in
the keycode table (erroring synchronously when absent); pick the down-event
type and text — `KeyDown` with the definition's text, else `KeyDown` with
the key itself as text when the key is one byte long (`key.len() == 1` in
Rust is byte length), else `RawKeyDown` with no text; then dispatch the
down event followed by a `KeyUp` carrying the same key/code/virtual-key-code
fields. -/
def PageInner.press_key {W : Type} (self : PageInner) (key : String)
    (lookup : String → Option KeyDefinition) (fresh : Nat)
    (envDown envUp : OneshotEnv (Except CdpError W))
    (to_command_response :
      W → String → Except CdpError (CommandResponse DispatchKeyEventReturns)) :
    List (TargetMessage DispatchKeyEventParams) × Except CdpError Unit × Nat :=
  match lookup key with
  | none => ([], Except.error (CdpError.msg ("Key not found: " ++ key)), fresh)
  | some key_definition =>
    let textAndDownType : Option String × DispatchKeyEventType :=
      match key_definition.text with
      | some txt => (some txt, DispatchKeyEventType.keyDown)
      | none =>
        if key_definition.key.utf8ByteSize = 1 then
          (some key_definition.key, DispatchKeyEventType.keyDown)
        else
          (none, DispatchKeyEventType.rawKeyDown)
    let cmd : DispatchKeyEventParams :=
      { type := DispatchKeyEventType.keyDown
        text := textAndDownType.1
        key := some key_definition.key
        code := some key_definition.code
        windows_virtual_key_code := some key_definition.key_code
        native_virtual_key_code := some key_definition.key_code }
    match PageInner.execute self { cmd with type := textAndDownType.2 }
        DispatchKeyEventParams.identifier to_command_response fresh envDown with
    | (ms1, Except.error e, fresh1) => (ms1, Except.error e, fresh1)
    | (ms1, Except.ok _, fresh1) =>
      match PageInner.execute self { cmd with type := DispatchKeyEventType.keyUp }
          DispatchKeyEventParams.identifier to_command_response fresh1 envUp with
      | (ms2, Except.error e, fresh2) => (ms1 ++ ms2, Except.error e, fresh2)
      | (ms2, Except.ok _, fresh2) => (ms1 ++ ms2, Except.ok (), fresh2)

/-- Loop body of `PageInner::type_str` (page.rs lines 176–181): press each
character in turn, aborting at the first error.  In Rust the characters are
obtained by `input.split("").filter(|s| !s.is_empty())`, which yields the
characters of the string one at a time; the embedding walks the character
list.  `envs` supplies the environment of the round trip owning each
channel token. -/
def typeStrGo {W : Type} (self : PageInner)
    (lookup : String → Option KeyDefinition)
    (envs : Nat → OneshotEnv (Except CdpError W))
    (to_command_response :
      W → String → Except CdpError (CommandResponse DispatchKeyEventReturns)) :
    List Char → Nat → List (TargetMessage DispatchKeyEventParams) × Except CdpError Unit × Nat
  | [], fresh => ([], Except.ok (), fresh)
  | c :: rest, fresh =>
    match PageInner.press_key self (String.singleton c) lookup fresh (envs fresh)
        (envs (fresh + 1)) to_command_response with
    | (ms, Except.error e, fresh1) => (ms, Except.error e, fresh1)
    | (ms, Except.ok _, fresh1) =>
      match typeStrGo self lookup envs to_command_response rest fresh1 with
      | (ms2, r, fresh2) => (ms ++ ms2, r, fresh2)

/-- `PageInner::type_str` (page.rs lines 176–181). -/
def PageInner.type_str {W : Type} (self : PageInner) (input : String)
    (lookup : String → Option KeyDefinition) (fresh : Nat)
    (envs : Nat → OneshotEnv (Except CdpError W))
    (to_command_response :
      W → String → Except CdpError (CommandResponse DispatchKeyEventReturns)) :
    List (TargetMessage DispatchKeyEventParams) × Except CdpError Unit × Nat :=
  typeStrGo self lookup envs to_command_response input.toList fresh

/-- Modelled from the spec: `browser_protocol::dom::QuerySelectorParams`
(external protocol catalog). -/
structure QuerySelectorParams where
  node_id : NodeId
  selector : String
  deriving DecidableEq

/-- `QuerySelectorParams::new` (external protocol catalog). -/
def QuerySelectorParams.new (node_id : NodeId) (selector : String) : QuerySelectorParams :=
  ⟨node_id, selector⟩

/-- Wire method of a `QuerySelectorParams` command. -/
def QuerySelectorParams.identifier (_ : QuerySelectorParams) : String :=
  querySelectorMethod

/-- Modelled from the spec: `browser_protocol::dom::QuerySelectorReturns`
(external protocol catalog): the matched node id, `0` when nothing
matches. -/
structure QuerySelectorReturns where
  node_id : NodeId
  deriving DecidableEq

/-- `PageInner::find_element` (page.rs lines 98–103): execute
`DOM.querySelector` and project the `node_id` of the response. -/
def PageInner.find_element {W : Type} (self : PageInner) (selector : String)
    (node : NodeId) (fresh : Nat) (env : OneshotEnv (Except CdpError W))
    (to_command_response :
      W → String → Except CdpError (CommandResponse QuerySelectorReturns)) :
    List (TargetMessage QuerySelectorParams) × Except CdpError NodeId × Nat :=
  match PageInner.execute self (QuerySelectorParams.new node selector)
      QuerySelectorParams.identifier to_command_response fresh env with
  | (ms, Except.ok resp, fresh1) => (ms, Except.ok resp.result.node_id, fresh1)
  | (ms, Except.error e, fresh1) => (ms, Except.error e, fresh1)

/-- One caller-visible operation on a session handle, with the environment
data its round trips need.  Used to state the immutability invariant over
arbitrary operation sequences. -/
inductive Op (W : Type) where
  | executeCmd (cmd : EvaluateParams) (env : OneshotEnv (Except CdpError W))
      (toResp : W → String → Except CdpError (CommandResponse EvaluateReturns))
  | waitForNav (env : OneshotEnv (Except CdpError String))
  | executionContext (env : OneshotEnv (Option ExecutionContextId))
  | secondaryExecutionContext (env : OneshotEnv (Option ExecutionContextId))
  | pressKey (key : String) (lookup : String → Option KeyDefinition)
      (envDown envUp : OneshotEnv (Except CdpError W))
      (toResp : W → String → Except CdpError (CommandResponse DispatchKeyEventReturns))
  | typeStr (input : String) (lookup : String → Option KeyDefinition)
      (envs : Nat → OneshotEnv (Except CdpError W))
      (toResp : W → String → Except CdpError (CommandResponse DispatchKeyEventReturns))
  | evaluateExpr (p : EvaluateParams) (ctxEnv : OneshotEnv (Option ExecutionContextId))
      (cmdEnv : OneshotEnv (Except CdpError W))
      (toResp : W → String → Except CdpError (CommandResponse EvaluateReturns))
  | evaluateFn (p : CallFunctionOnParams) (ctxEnv : OneshotEnv (Option ExecutionContextId))
      (cmdEnv : OneshotEnv (Except CdpError W))
      (toResp : W → String → Except CdpError (CommandResponse CallFunctionOnReturns))
  | findElement (selector : String) (node : NodeId) (env : OneshotEnv (Except CdpError W))
      (toResp : W → String → Except CdpError (CommandResponse QuerySelectorReturns))

/-- Run one operation against the handle.  Every method of `PageInner` takes
`&self` (a shared borrow) and the struct has no interior mutability, so the
handle after the call is the handle before it; the oneshot-token counter
advances by whatever the operation's embedding consumed. -/
def applyOp {W : Type} (p : PageInner) (fresh : Nat) : Op W → PageInner × Nat
  | Op.executeCmd cmd env toResp =>
      (p, (PageInner.execute p cmd EvaluateParams.identifier toResp fresh env).2.2)
  | Op.waitForNav env =>
      (p, (PageInner.wait_for_navigation (C := EvaluateParams) p fresh env).2.2)
  | Op.executionContext env =>
      (p, (PageInner.execution_context (C := EvaluateParams) p fresh env).2.2)
  | Op.secondaryExecutionContext env =>
      (p, (PageInner.secondary_execution_context (C := EvaluateParams) p fresh env).2.2)
  | Op.pressKey key lookup envDown envUp toResp =>
      (p, (PageInner.press_key p key lookup fresh envDown envUp toResp).2.2)
  | Op.typeStr input lookup envs toResp =>
      (p, (PageInner.type_str p input lookup fresh envs toResp).2.2)
  | Op.evaluateExpr q ctxEnv cmdEnv toResp =>
      (p, (PageInner.evaluate_expression p q fresh ctxEnv cmdEnv toResp).2.2)
  | Op.evaluateFn q ctxEnv cmdEnv toResp =>
      (p, (PageInner.evaluate_function p q fresh ctxEnv cmdEnv toResp).2.2)
  | Op.findElement selector node env toResp =>
      (p, (PageInner.find_element p selector node fresh env toResp).2.2)

/-- Run a sequence of operations against the handle, threading the handle
and the token counter. -/
def runOps {W : Type} (p : PageInner) (fresh : Nat) (ops : List (Op W)) : PageInner × Nat :=
  ops.foldl (fun st op => applyOp st.1 st.2 op) (p, fresh)

/-- Claim C1: every command executed via `PageInner::execute` puts exactly one
outbound message into the routing-actor mailbox (none when the mailbox send
itself fails), wrapping the command together with the handle's `SessionId`
and the freshly allocated single-use oneshot completion token; the call
resolves to the response decoded by the command's statically paired decoder
on fulfillment, to the fulfilled error on an error fulfillment, and to an
error (never a response) when the mailbox send fails or the completion
channel is dropped unfulfilled. -/
theorem execute_correlation_contract {C R W : Type} (self : PageInner) (cmd : C)
    (identifier : C → String)
    (toResp : W → String → Except CdpError (CommandResponse R))
    (fresh : Nat) (env : OneshotEnv (Except CdpError W)) :
    PageInner.execute self cmd identifier toResp fresh env =
      (if env.sendOk then
        match env.reply with
        | Fulfillment.fulfilled (Except.ok raw) =>
            ([TargetMessage.command ⟨cmd, identifier cmd, some self.session_id, fresh⟩],
              toResp raw (identifier cmd), fresh + 1)
        | Fulfillment.fulfilled (Except.error e) =>
            ([TargetMessage.command ⟨cmd, identifier cmd, some self.session_id, fresh⟩],
              Except.error e, fresh + 1)
        | Fulfillment.dropped =>
            ([TargetMessage.command ⟨cmd, identifier cmd, some self.session_id, fresh⟩],
              Except.error (CdpError.channelSendError ChannelError.canceled), fresh + 1)
      else
        ([], Except.error (CdpError.channelSendError ChannelError.send), fresh + 1))
    ∧ (PageInner.execute self cmd identifier toResp fresh env).1.length
        = (if env.sendOk then 1 else 0) := by
  obtain ⟨s, r⟩ := env
  constructor
  · rfl
  · cases s
    · rfl
    · rcases r with v | _
      · rcases v with raw | e <;> rfl
      · rfl

/-- Claim C3: execution-context resolution for a DOM world sends one
`GetExecutionContext` message (not a protocol command) with no frame id
through the same mailbox used for commands, and resolves to
`Result<Option<ExecutionContextId>>` where a fulfilled `None` is a
successful, non-error outcome; `execution_context` queries the Main world
and `secondary_execution_context` the Secondary world. -/
theorem execution_context_resolution_contract {C : Type} (self : PageInner)
    (w : DOMWorldKind) (fresh : Nat) (env : OneshotEnv (Option ExecutionContextId)) :
    PageInner.execution_context_for_world (C := C) self w fresh env =
      (if env.sendOk then
        match env.reply with
        | Fulfillment.fulfilled v =>
            ([TargetMessage.getExecutionContext ⟨w, none, fresh⟩], Except.ok v, fresh + 1)
        | Fulfillment.dropped =>
            ([TargetMessage.getExecutionContext ⟨w, none, fresh⟩],
              Except.error (CdpError.channelSendError ChannelError.canceled), fresh + 1)
      else
        ([], Except.error (CdpError.channelSendError ChannelError.send), fresh + 1))
    ∧ PageInner.execution_context (C := C) self fresh env
        = PageInner.execution_context_for_world (C := C) self DOMWorldKind.main fresh env
    ∧ PageInner.secondary_execution_context (C := C) self fresh env
        = PageInner.execution_context_for_world (C := C) self DOMWorldKind.secondary fresh env
    ∧ (PageInner.execution_context_for_world (C := C) self w fresh
        ⟨true, Fulfillment.fulfilled none⟩).2.1 = Except.ok none := by
  obtain ⟨s, r⟩ := env
  refine ⟨?_, rfl, rfl, rfl⟩
  cases s
  · rfl
  · cases r <;> rfl

/-- Claim C4: every `wait_for_navigation` call registers a fresh one-shot
interest (one `WaitForNavigation` message carrying the newly allocated
oneshot token) and resolves to the settled document URL on fulfillment;
when the routing actor is gone — the mailbox send fails or the oneshot is
dropped unfulfilled — it resolves to a connection-lost error instead of
suspending forever. -/
theorem wait_for_navigation_contract {C : Type} (self : PageInner) (fresh : Nat)
    (env : OneshotEnv (Except CdpError String)) (url : String) :
    PageInner.wait_for_navigation (C := C) self fresh env =
      (if env.sendOk then
        match env.reply with
        | Fulfillment.fulfilled (Except.ok u) =>
            ([TargetMessage.waitForNavigation fresh], Except.ok u, fresh + 1)
        | Fulfillment.fulfilled (Except.error e) =>
            ([TargetMessage.waitForNavigation fresh], Except.error e, fresh + 1)
        | Fulfillment.dropped =>
            ([TargetMessage.waitForNavigation fresh],
              Except.error (CdpError.channelSendError ChannelError.canceled), fresh + 1)
      else
        ([], Except.error (CdpError.channelSendError ChannelError.send), fresh + 1))
    ∧ (PageInner.wait_for_navigation (C := C) self fresh
        ⟨true, Fulfillment.fulfilled (Except.ok url)⟩).2.1 = Except.ok url
    ∧ (PageInner.wait_for_navigation (C := C) self fresh ⟨false, env.reply⟩).2.1
        = Except.error (CdpError.channelSendError ChannelError.send)
    ∧ (PageInner.wait_for_navigation (C := C) self fresh ⟨true, Fulfillment.dropped⟩).2.1
        = Except.error (CdpError.channelSendError ChannelError.canceled)
    ∧ CdpError.is_connection_lost (CdpError.channelSendError ChannelError.send) = true
    ∧ CdpError.is_connection_lost (CdpError.channelSendError ChannelError.canceled) = true := by
  obtain ⟨s, r⟩ := env
  refine ⟨?_, rfl, rfl, rfl, rfl, rfl⟩
  cases s
  · rfl
  · rcases r with v | _
    · rcases v with u | e <;> rfl
    · rfl

/-- Claim C9: `PageHandle::new` builds the handle's outbound channel with
`channel(1)`, a bounded buffer of capacity exactly one, so the mailbox
accepts a queued outbound message exactly when the queue is empty — a
subsequent send must wait. -/
theorem page_handle_channel_capacity (t : TargetId) (s : SessionId) :
    ((PageHandle.new t s).page.sender).buffer = 1
    ∧ ∀ queued : Nat,
        Sender.accepts ((PageHandle.new t s).page.sender) queued = decide (queued = 0) := by
  constructor
  · rfl
  · intro queued
    simp [PageHandle.new, channel, Sender.accepts, Nat.lt_one_iff]

/-- Claim C2: for `evaluate_expression` and `evaluate_function`, when the
caller supplied no execution-context id the Main world's resolved context id
is filled into the executed command; `await_promise` and `return_by_value`
are defaulted to `true` exactly when unset; and a response carrying
exception details resolves to the typed `JavascriptException` error instead
of a success value. -/
theorem evaluate_defaults_and_exception_promotion {W : Type} (self : PageInner)
    (e : String) (ap rb : Option Bool) (fresh : Nat) (cid : Option ExecutionContextId)
    (ro : RemoteObject) (exd : Option ExceptionDetails)
    (f : String) (oid : Option RemoteObjectId) (gp : Option Bool) (raw : W) :
    PageInner.evaluate_expression self ⟨e, none, ap, rb⟩ fresh
        ⟨true, Fulfillment.fulfilled cid⟩ ⟨true, Fulfillment.fulfilled (Except.ok raw)⟩
        (fun _ _ => Except.ok ⟨⟨ro, exd⟩, evaluateMethod⟩) =
      ([TargetMessage.getExecutionContext ⟨DOMWorldKind.main, none, fresh⟩,
        TargetMessage.command ⟨⟨e, cid, some (ap.getD true), some (rb.getD true)⟩,
          evaluateMethod, some self.session_id, fresh + 1⟩],
        (match exd with
         | some ex => Except.error (CdpError.javascriptException ex)
         | none => Except.ok (EvaluationResult.new ro)),
        fresh + 2)
    ∧ PageInner.evaluate_function self ⟨f, oid, none, ap, rb, gp⟩ fresh
        ⟨true, Fulfillment.fulfilled cid⟩ ⟨true, Fulfillment.fulfilled (Except.ok raw)⟩
        (fun _ _ => Except.ok ⟨⟨ro, exd⟩, callFunctionOnMethod⟩) =
      ([TargetMessage.getExecutionContext ⟨DOMWorldKind.main, none, fresh⟩,
        TargetMessage.command ⟨⟨f, oid, cid, some (ap.getD true), some (rb.getD true), gp⟩,
          callFunctionOnMethod, some self.session_id, fresh + 1⟩],
        (match exd with
         | some ex => Except.error (CdpError.javascriptException ex)
         | none => Except.ok (EvaluationResult.new ro)),
        fresh + 2) := by
  constructor <;> cases ap <;> cases rb <;> cases exd <;> rfl

/-- Claim C10: the evaluation wrappers leave caller-supplied parameters
unchanged — a supplied context id is passed through to the executed command
exactly, supplied `await_promise`/`return_by_value` flags keep their values
(`some (o.getD true)` equals `o` whenever `o` is `some`), other fields such
as `generate_preview` are untouched, and no execution-context query is ever
issued when a context id was supplied (the context environment is arbitrary
and unused, and the message list also stays free of context queries on the
failed-send path). -/
theorem evaluate_passthrough {W : Type} (self : PageInner) (e : String)
    (c : ExecutionContextId) (ap rb : Option Bool) (fresh : Nat)
    (ctxEnv : OneshotEnv (Option ExecutionContextId)) (raw : W)
    (r2 : Fulfillment (Except CdpError W))
    (ro : RemoteObject) (exd : Option ExceptionDetails)
    (f : String) (oid : Option RemoteObjectId) (gp : Option Bool) :
    PageInner.evaluate_expression self ⟨e, some c, ap, rb⟩ fresh ctxEnv
        ⟨true, Fulfillment.fulfilled (Except.ok raw)⟩
        (fun _ _ => Except.ok ⟨⟨ro, exd⟩, evaluateMethod⟩) =
      ([TargetMessage.command ⟨⟨e, some c, some (ap.getD true), some (rb.getD true)⟩,
          evaluateMethod, some self.session_id, fresh⟩],
        (match exd with
         | some ex => Except.error (CdpError.javascriptException ex)
         | none => Except.ok (EvaluationResult.new ro)),
        fresh + 1)
    ∧ (PageInner.evaluate_expression self ⟨e, some c, ap, rb⟩ fresh ctxEnv ⟨false, r2⟩
        (fun _ _ => Except.ok ⟨⟨ro, exd⟩, evaluateMethod⟩)).1 = []
    ∧ PageInner.evaluate_function self ⟨f, oid, some c, ap, rb, gp⟩ fresh ctxEnv
        ⟨true, Fulfillment.fulfilled (Except.ok raw)⟩
        (fun _ _ => Except.ok ⟨⟨ro, exd⟩, callFunctionOnMethod⟩) =
      ([TargetMessage.command ⟨⟨f, oid, some c, some (ap.getD true), some (rb.getD true), gp⟩,
          callFunctionOnMethod, some self.session_id, fresh⟩],
        (match exd with
         | some ex => Except.error (CdpError.javascriptException ex)
         | none => Except.ok (EvaluationResult.new ro)),
        fresh + 1)
    ∧ (PageInner.evaluate_function self ⟨f, oid, some c, ap, rb, gp⟩ fresh ctxEnv ⟨false, r2⟩
        (fun _ _ => Except.ok ⟨⟨ro, exd⟩, callFunctionOnMethod⟩)).1 = [] := by
  refine ⟨?_, ?_, ?_, ?_⟩ <;> cases ap <;> cases rb <;> cases exd <;> rfl

/-- Claim C5: for every key name with a known key definition, `press_key`
dispatches exactly two key events in order — first a `KeyDown` (a
`RawKeyDown` exactly when the definition has no text and its key is not a
single one-byte character, `key.len() == 1` in the source), then a `KeyUp`
— with identical key, code and windows/native virtual-key-code fields in
both events; and `type_str` decomposes its input into one `press_key` per
character, so typing "Hi" against the keycode table dispatches exactly four
events: H-down, H-up, i-down, i-up. -/
theorem press_key_two_events {W : Type} (self : PageInner) (key : String)
    (kd : KeyDefinition) (lookup : String → Option KeyDefinition) (fresh : Nat)
    (rawD rawU : W) (h : lookup key = some kd) :
    PageInner.press_key self key lookup fresh
        ⟨true, Fulfillment.fulfilled (Except.ok rawD)⟩
        ⟨true, Fulfillment.fulfilled (Except.ok rawU)⟩
        (fun _ m => Except.ok ⟨⟨⟩, m⟩) =
      ([TargetMessage.command
          ⟨{ type := match kd.text with
               | some _ => DispatchKeyEventType.keyDown
               | none =>
                 if kd.key.utf8ByteSize = 1 then DispatchKeyEventType.keyDown
                 else DispatchKeyEventType.rawKeyDown
             text := match kd.text with
               | some t => some t
               | none => if kd.key.utf8ByteSize = 1 then some kd.key else none
             key := some kd.key
             code := some kd.code
             windows_virtual_key_code := some kd.key_code
             native_virtual_key_code := some kd.key_code },
            dispatchKeyEventMethod, some self.session_id, fresh⟩,
        TargetMessage.command
          ⟨{ type := DispatchKeyEventType.keyUp
             text := match kd.text with
               | some t => some t
               | none => if kd.key.utf8ByteSize = 1 then some kd.key else none
             key := some kd.key
             code := some kd.code
             windows_virtual_key_code := some kd.key_code
             native_virtual_key_code := some kd.key_code },
            dispatchKeyEventMethod, some self.session_id, fresh + 1⟩],
        Except.ok (), fresh + 2)
    ∧ PageInner.type_str (W := W) self ("Hi") get_key_definition 0
        (fun _ => ⟨true, Fulfillment.fulfilled (Except.ok rawD)⟩)
        (fun _ m => Except.ok ⟨⟨⟩, m⟩) =
      ([TargetMessage.command
          ⟨⟨DispatchKeyEventType.keyDown, some "H", some "H", some "KeyH", some 72, some 72⟩,
            dispatchKeyEventMethod, some self.session_id, 0⟩,
        TargetMessage.command
          ⟨⟨DispatchKeyEventType.keyUp, some "H", some "H", some "KeyH", some 72, some 72⟩,
            dispatchKeyEventMethod, some self.session_id, 1⟩,
        TargetMessage.command
          ⟨⟨DispatchKeyEventType.keyDown, some "i", some "i", some "KeyI", some 73, some 73⟩,
            dispatchKeyEventMethod, some self.session_id, 2⟩,
        TargetMessage.command
          ⟨⟨DispatchKeyEventType.keyUp, some "i", some "i", some "KeyI", some 73, some 73⟩,
            dispatchKeyEventMethod, some self.session_id, 3⟩],
        Except.ok (), 4) := by
  constructor
  · rcases htx : kd.text with _ | t
    · by_cases hlen : kd.key.utf8ByteSize = 1 <;>
        simp [PageInner.press_key, PageInner.execute, execute,
          DispatchKeyEventParams.identifier, h, htx, hlen]
    · simp [PageInner.press_key, PageInner.execute, execute,
        DispatchKeyEventParams.identifier, h, htx]
  · rfl

/-- Witness for `press_key_two_events` at a concrete table entry: pressing
the Enter key (definition with text, so a plain `KeyDown`). -/
theorem press_key_two_events_witness :
    get_key_definition "Enter" = some ⟨"Enter", "Enter", 13, some "\r"⟩
    ∧ PageInner.press_key (W := Unit) ⟨⟨"T"⟩, ⟨"S"⟩, ⟨1⟩⟩ ("Enter") get_key_definition 3
        ⟨true, Fulfillment.fulfilled (Except.ok ())⟩
        ⟨true, Fulfillment.fulfilled (Except.ok ())⟩
        (fun _ m => Except.ok ⟨⟨⟩, m⟩) =
      ([TargetMessage.command
          ⟨⟨DispatchKeyEventType.keyDown, some "\r", some "Enter", some "Enter", some 13,
              some 13⟩, dispatchKeyEventMethod, some ⟨"S"⟩, 3⟩,
        TargetMessage.command
          ⟨⟨DispatchKeyEventType.keyUp, some "\r", some "Enter", some "Enter", some 13,
              some 13⟩, dispatchKeyEventMethod, some ⟨"S"⟩, 4⟩],
        Except.ok (), 5) := by
  refine ⟨rfl, ?_⟩
  exact (press_key_two_events (W := Unit) ⟨⟨"T"⟩, ⟨"S"⟩, ⟨1⟩⟩ ("Enter")
    ⟨"Enter", "Enter", 13, some "\r"⟩ get_key_definition 3 () () rfl).1

/-- Claim C6: for a key name with no entry in the key-definition table,
`press_key` resolves synchronously to the typed not-found error with an
empty outbound message list (no remote key event is dispatched) and without
consuming a completion channel. -/
theorem press_key_unknown_key {W : Type} (self : PageInner) (key : String)
    (lookup : String → Option KeyDefinition) (fresh : Nat)
    (envDown envUp : OneshotEnv (Except CdpError W))
    (toResp : W → String → Except CdpError (CommandResponse DispatchKeyEventReturns))
    (h : lookup key = none) :
    PageInner.press_key self key lookup fresh envDown envUp toResp =
      ([], Except.error (CdpError.msg ("Key not found: " ++ key)), fresh) := by
  simp [PageInner.press_key, h]

/-- Witness for `press_key_unknown_key`: the modelled table has no entry for
the name "Bogus". -/
theorem press_key_unknown_key_witness :
    get_key_definition "Bogus" = none
    ∧ PageInner.press_key (W := Unit) ⟨⟨"T"⟩, ⟨"S"⟩, ⟨1⟩⟩ ("Bogus") get_key_definition 7
        ⟨true, Fulfillment.fulfilled (Except.ok ())⟩
        ⟨true, Fulfillment.fulfilled (Except.ok ())⟩
        (fun _ m => Except.ok ⟨⟨⟩, m⟩) =
      ([], Except.error (CdpError.msg ("Key not found: " ++ "Bogus")), 7) := by
  refine ⟨rfl, ?_⟩
  exact press_key_unknown_key (W := Unit) ⟨⟨"T"⟩, ⟨"S"⟩, ⟨1⟩⟩ ("Bogus") get_key_definition 7
    ⟨true, Fulfillment.fulfilled (Except.ok ())⟩ ⟨true, Fulfillment.fulfilled (Except.ok ())⟩
    (fun _ m => Except.ok ⟨⟨⟩, m⟩) rfl

/-- Claim C7: `find_element` with a selector that matches nothing resolves
to a not-found outcome and never crashes: the embedding is a total function
whose value is the engine's zero-node-id sentinel when the remote answers a
no-match success, and the typed protocol error when the remote rejects the
query; the single message sent wraps the selector. -/
theorem find_element_missing_selector {W : Type} (self : PageInner) (selector : String)
    (node : NodeId) (fresh : Nat) (e : CdpError) (raw : W) :
    (PageInner.find_element self selector node fresh
        ⟨true, Fulfillment.fulfilled (Except.ok raw)⟩
        (fun _ m => Except.ok ⟨⟨⟨0⟩⟩, m⟩)).2.1 = Except.ok ⟨0⟩
    ∧ (PageInner.find_element self selector node fresh
        ⟨true, Fulfillment.fulfilled (Except.error e : Except CdpError W)⟩
        (fun _ m => Except.ok ⟨⟨⟨0⟩⟩, m⟩)).2.1 = Except.error e
    ∧ (PageInner.find_element self selector node fresh
        ⟨true, Fulfillment.fulfilled (Except.ok raw)⟩
        (fun _ m => Except.ok ⟨⟨⟨0⟩⟩, m⟩)).1
      = [TargetMessage.command
          ⟨⟨node, selector⟩, querySelectorMethod, some self.session_id, fresh⟩] := by
  exact ⟨rfl, rfl, rfl⟩

/-- Claim C8: a session handle is never mutated after construction: for every
sequence of operations (command execution, navigation wait, context
resolution, key input, typing, evaluation, element lookup), the handle after
the sequence is the handle built at construction, and `target_id` /
`session_id` still return exactly the identifiers supplied to
`PageHandle::new`. -/
theorem session_handle_immutable {W : Type} (t : TargetId) (s : SessionId)
    (ops : List (Op W)) (fresh : Nat) :
    (PageHandle.new t s).page.target_id = t
    ∧ (PageHandle.new t s).page.session_id = s
    ∧ (runOps (PageHandle.new t s).page fresh ops).1 = (PageHandle.new t s).page
    ∧ (runOps (PageHandle.new t s).page fresh ops).1.target_id = t
    ∧ (runOps (PageHandle.new t s).page fresh ops).1.session_id = s := by
  have key : ∀ (l : List (Op W)) (st : PageInner × Nat),
      (l.foldl (fun st op => applyOp st.1 st.2 op) st).1 = st.1 := by
    intro l
    induction l with
    | nil => intro st; rfl
    | cons o rest ih =>
        intro st
        have h2 : (rest.foldl (fun st op => applyOp st.1 st.2 op) (applyOp st.1 st.2 o)).1
            = (applyOp st.1 st.2 o).1 := ih (applyOp st.1 st.2 o)
        have h3 : (applyOp st.1 st.2 o).1 = st.1 := by cases o <;> rfl
        simpa [List.foldl, h3] using h2
  have hrun : (runOps (PageHandle.new t s).page fresh ops).1 = (PageHandle.new t s).page :=
    key ops ⟨(PageHandle.new t s).page, fresh⟩
  refine ⟨rfl, rfl, hrun, ?_, ?_⟩
  · exact (congrArg PageInner.target_id hrun).trans rfl
  · exact (congrArg PageInner.session_id hrun).trans rfl

end Chromiumoxide
